import Mathlib

/-!
Shallow embedding of `nb_api.py` (nbpy): the `NationBuilderApi` gateway,
its response-classification logic, the lazy session authorisation, and the
`NBResponseError` exception hierarchy.  Stateful Python methods are embedded
as explicit state-passing functions; `raise` becomes `Except.error`; the
`print` calls in `NBResponseError.__init__` and the `log.debug` call in
`_check_response` are recorded as explicit output channels.
-/

/-- Python truthiness of an optional string value (`None` and `""` are falsy),
as used by the expression `url or attempted_action or "Unknown"`. -/
def pyTruthy : Option String → Bool
  | none => false
  | some s => s != ""

/-- Python `a or b` on optional string values. -/
def pyOrStr (a b : Option String) : Option String :=
  if pyTruthy a then a else b

/-- Python `str()` of an optional string: `None` prints as `"None"`. -/
def pyStrOpt : Option String → String
  | none => "None"
  | some s => s

/-- The Python classes involved in the exception hierarchy of `nb_api.py`:
`NBResponseError(Exception)`, `NBBadRequestError(NBResponseError)`,
`NBNotFoundError(NBResponseError)`. -/
inductive PyClass where
  | exception
  | nbResponseError
  | nbBadRequestError
  | nbNotFoundError
deriving DecidableEq, Repr

/-- Method resolution order of each class, read off the `class C(Base)`
declarations in `nb_api.py`. -/
def PyClass.mro : PyClass → List PyClass
  | .exception => [.exception]
  | .nbResponseError => [.nbResponseError, .exception]
  | .nbBadRequestError => [.nbBadRequestError, .nbResponseError, .exception]
  | .nbNotFoundError => [.nbNotFoundError, .nbResponseError, .exception]

/-- Python `issubclass c d` (also `isinstance` for an object of class `c`). -/
def isSubclassOf (c d : PyClass) : Bool :=
  (PyClass.mro c).contains d

/-- The response-header object handed to `_check_response` / `_raise_error`
(an `httplib2.Response`): the code reads only `.status`; the remaining header
fields are carried as an association list. -/
structure Response where
  status : Nat
  fields : List (String × String)
deriving DecidableEq, Repr

/-- Model of `str()` of the response-header object, as interpolated by
the `"Header: %s" % header` format in `NBResponseError.__init__`. -/
def reprResponse (h : Response) : String :=
  "Response(status=" ++ toString h.status ++ ", " ++ toString h.fields ++ ")"

/-- An `oauth2client` `AccessTokenCredentials(token, user_agent)` value. -/
structure AccessTokenCredentials where
  access_token : String
  user_agent : Option String
deriving DecidableEq, Repr

/-- An `httplib2.Http` transport object: the constructor flag used by
`_authorise`, plus the credentials attached by `authorize`. -/
structure Http where
  disable_ssl_certificate_validation : Bool
  credentials : Option AccessTokenCredentials
deriving DecidableEq, Repr

/-- Model of `cred.authorize(http)`: returns the transport with the
credentials attached. -/
def AccessTokenCredentials.authorize (cred : AccessTokenCredentials)
    (h : Http) : Http :=
  { h with credentials := some cred }

/-- The state of a `NationBuilderApi` object: every attribute assigned in
`NationBuilderApi.__init__`. -/
structure NationBuilderApi where
  NATION_SLUG : String
  ACCESS_TOKEN : Option String
  BASE_URL : String
  PAGINATE_QUERY : String
  GET_PEOPLE_URL : String
  GET_PERSON_URL : String
  MATCH_PERSON_URL : String
  MATCH_EMAIL_URL : String
  SEARCH_PERSON_URL : String
  NEARBY_URL : String
  UPDATE_PERSON_URL : String
  REGISTER_PERSON_URL : String
  PERSON_TAGS_URL : String
  REMOVE_TAG_URL : String
  LIST_TAGS_URL : String
  GET_BY_TAG_URL : String
  LIST_INDEX_URL : String
  GET_LIST_URL : String
  GET_CONTACT_URL : String
  CONTACT_TYPES_URL : String
  UPDATE_CONTACT_TYPE_URL : String
  CONTACT_METHODS_URL : String
  CONTACT_STATUS_URL : String
  USER_AGENT : String
  HEADERS : List (String × String)
  http : Option Http
deriving DecidableEq, Repr

/-- `NationBuilderApi.__init__(nation_slug, api_key)`: sets every attribute;
performs no validation and no network activity; `self.http = None`. -/
def NationBuilderApi.init (nation_slug : String) (api_key : Option String) :
    NationBuilderApi :=
  let NATION_SLUG := nation_slug
  let ACCESS_TOKEN := api_key
  let BASE_URL := String.join ["https://", NATION_SLUG, ".nationbuilder.com/api/v1"]
  let PAGINATE_QUERY := "?page={page}&per_page={per_page}"
  let GET_PEOPLE_URL := BASE_URL ++ "/people"
  let GET_PERSON_URL := GET_PEOPLE_URL ++ "/{0}"
  let MATCH_PERSON_URL := BASE_URL ++ "/people/match?"
  let MATCH_EMAIL_URL := BASE_URL ++ "/people/match?email={0}"
  let SEARCH_PERSON_URL := GET_PEOPLE_URL ++ "/search" ++ PAGINATE_QUERY
  let NEARBY_URL := GET_PEOPLE_URL ++ "/nearby" ++ PAGINATE_QUERY
      ++ "&location={lat},{lng}" ++ "&distance={dist}"
  let UPDATE_PERSON_URL := GET_PERSON_URL
  let REGISTER_PERSON_URL := GET_PERSON_URL ++ "/register"
  let PERSON_TAGS_URL := GET_PERSON_URL ++ "/taggings"
  let REMOVE_TAG_URL := PERSON_TAGS_URL ++ "/{1}"
  let LIST_TAGS_URL := BASE_URL ++ "/tags" ++ PAGINATE_QUERY
  let GET_BY_TAG_URL := String.join [BASE_URL, "/tags/{tag}/people", PAGINATE_QUERY]
  let LIST_INDEX_URL := BASE_URL ++ "/lists" ++ PAGINATE_QUERY
  let GET_LIST_URL := String.join [BASE_URL, "/lists/{list_id}/people", PAGINATE_QUERY]
  let GET_CONTACT_URL := GET_PERSON_URL ++ "/contacts"
  let CONTACT_TYPES_URL := BASE_URL ++ "/settings/contact_types"
  let UPDATE_CONTACT_TYPE_URL := CONTACT_TYPES_URL ++ "/{id}"
  let CONTACT_METHODS_URL := BASE_URL ++ "/settings/contact_methods"
  let CONTACT_STATUS_URL := BASE_URL ++ "/settings/contact_statuses"
  let USER_AGENT := "nbpy/0.2"
  let HEADERS := [("Content-type", "application/json"),
                  ("Accept", "application/json"),
                  ("User-Agent", USER_AGENT)]
  { NATION_SLUG := NATION_SLUG
    ACCESS_TOKEN := ACCESS_TOKEN
    BASE_URL := BASE_URL
    PAGINATE_QUERY := PAGINATE_QUERY
    GET_PEOPLE_URL := GET_PEOPLE_URL
    GET_PERSON_URL := GET_PERSON_URL
    MATCH_PERSON_URL := MATCH_PERSON_URL
    MATCH_EMAIL_URL := MATCH_EMAIL_URL
    SEARCH_PERSON_URL := SEARCH_PERSON_URL
    NEARBY_URL := NEARBY_URL
    UPDATE_PERSON_URL := UPDATE_PERSON_URL
    REGISTER_PERSON_URL := REGISTER_PERSON_URL
    PERSON_TAGS_URL := PERSON_TAGS_URL
    REMOVE_TAG_URL := REMOVE_TAG_URL
    LIST_TAGS_URL := LIST_TAGS_URL
    GET_BY_TAG_URL := GET_BY_TAG_URL
    LIST_INDEX_URL := LIST_INDEX_URL
    GET_LIST_URL := GET_LIST_URL
    GET_CONTACT_URL := GET_CONTACT_URL
    CONTACT_TYPES_URL := CONTACT_TYPES_URL
    UPDATE_CONTACT_TYPE_URL := UPDATE_CONTACT_TYPE_URL
    CONTACT_METHODS_URL := CONTACT_METHODS_URL
    CONTACT_STATUS_URL := CONTACT_STATUS_URL
    USER_AGENT := USER_AGENT
    HEADERS := HEADERS
    http := none }

/-- The exception object raised by `_raise_error`: its Python class plus the
fields stored by `NBResponseError.__init__` (`msg` is the `Exception`
message argument). -/
structure NBError where
  cls : PyClass
  msg : Option String
  header : Response
  body : String
  url : Option String
deriving DecidableEq, Repr

/-- `NBResponseError.__init__(msg, header, body, url)` (also run, unchanged,
for the two subclasses): stores `url`, `header`, `body`, forwards `msg` to
`Exception.__init__`, and `print`s the url, the headers and the body.
Returns the constructed exception object together with the lines written to
standard output. -/
def NBResponseError.initErr (cls : PyClass) (msg : Option String)
    (header : Response) (body : String) (url : Option String) :
    NBError × List String :=
  ({ cls := cls, msg := msg, header := header, body := body, url := url },
   [pyStrOpt url,
    "Header: " ++ reprResponse header,
    "Body: " ++ body])

/-- The `error_map` dictionary lookup in `_raise_error`:
`{404: NBNotFoundError, 400: NBBadRequestError}.get(status)`. -/
def error_map (status : Nat) : Option PyClass :=
  if status = 404 then some PyClass.nbNotFoundError
  else if status = 400 then some PyClass.nbBadRequestError
  else none

/-- `NationBuilderApi._raise_error(msg, header, body, url)`: picks the
exception class (`error_map.get(header.status) or NBResponseError`) and
constructs it.  Returns the unchanged object state, the raised exception and
the stdout lines produced by its construction. -/
def NationBuilderApi._raise_error (g : NationBuilderApi) (msg : Option String)
    (header : Response) (body : String) (url : Option String) :
    NationBuilderApi × NBError × List String :=
  let err := (error_map header.status).getD PyClass.nbResponseError
  let eo := NBResponseError.initErr err msg header body url
  (g, eo.1, eo.2)

/-- The observable outcome of one `_check_response` call: the (unchanged)
object state, normal return or raised exception, the `log.debug` calls made,
and the lines printed to stdout. -/
structure CheckResult where
  self : NationBuilderApi
  result : Except NBError Unit
  logCalls : List String
  stdout : List String
deriving Repr

/-- `NationBuilderApi._check_response(headers, content, attempted_action,
url=None)`: raises via `_raise_error` when the status is outside 200..299,
otherwise logs `"Request to %s successful."` with
`url or attempted_action or "Unknown"` at debug level. -/
def NationBuilderApi._check_response (g : NationBuilderApi)
    (headers : Response) (content : String)
    (attempted_action : Option String) (url : Option String) : CheckResult :=
  if headers.status < 200 ∨ headers.status > 299 then
    let r := g._raise_error attempted_action headers content url
    { self := r.1, result := Except.error r.2.1, logCalls := [], stdout := r.2.2 }
  else
    { self := g
      result := Except.ok ()
      logCalls := ["Request to "
        ++ pyStrOpt (pyOrStr url (pyOrStr attempted_action (some "Unknown")))
        ++ " successful."]
      stdout := [] }

/-- The raised exception of a `_check_response` call, if any. -/
def raisedError (r : CheckResult) : Option NBError :=
  match r.result with
  | Except.error e => some e
  | Except.ok _ => none

/-- `NationBuilderApi._authorise()`: a no-op when `self.http` already exists;
otherwise asserts the token is not `None`, builds `AccessTokenCredentials`
with a `None` user agent, builds an `httplib2.Http` with SSL-certificate
validation disabled, and stores the authorised transport in `self.http`.
An `Except.error` models the `AssertionError` escaping. -/
def NationBuilderApi._authorise (g : NationBuilderApi) :
    Except String NationBuilderApi :=
  if g.http.isSome then Except.ok g
  else
    match g.ACCESS_TOKEN with
    | none => Except.error "AssertionError"
    | some tok =>
      let cred : AccessTokenCredentials :=
        { access_token := tok, user_agent := none }
      let h : Http :=
        { disable_ssl_certificate_validation := true, credentials := none }
      Except.ok { g with http := some (cred.authorize h) }

/-- The outcome of running `_check_response` under a logging configuration:
`log.debug` calls reach the log output only when debug logging is enabled,
while `print` always writes to stdout. -/
structure RunOutput where
  self : NationBuilderApi
  result : Except NBError Unit
  logOutput : List String
  stdout : List String
deriving Repr

/-- Run `_check_response` under a given logging configuration
(`debugEnabled` is whether the `nbpy` logger delivers debug records). -/
def runCheckResponse (debugEnabled : Bool) (g : NationBuilderApi)
    (headers : Response) (content : String)
    (attempted_action : Option String) (url : Option String) : RunOutput :=
  let r := g._check_response headers content attempted_action url
  { self := r.self
    result := r.result
    logOutput := if debugEnabled then r.logCalls else []
    stdout := r.stdout }

/-! Helper lemmas characterising the two branches of `_check_response`. -/

/-- Failure branch of `_check_response`, fully evaluated. -/
theorem check_response_fail_eq (g : NationBuilderApi) (headers : Response)
    (content : String) (attempted_action url : Option String)
    (h : headers.status < 200 ∨ headers.status > 299) :
    g._check_response headers content attempted_action url =
      { self := g
        result := Except.error
          { cls := (error_map headers.status).getD PyClass.nbResponseError
            msg := attempted_action
            header := headers
            body := content
            url := url }
        logCalls := []
        stdout := [pyStrOpt url, "Header: " ++ reprResponse headers,
                   "Body: " ++ content] } := by
  unfold NationBuilderApi._check_response NationBuilderApi._raise_error
    NBResponseError.initErr
  rw [if_pos h]

/-- Success branch of `_check_response`, fully evaluated. -/
theorem check_response_ok_eq (g : NationBuilderApi) (headers : Response)
    (content : String) (attempted_action url : Option String)
    (h1 : 200 ≤ headers.status) (h2 : headers.status ≤ 299) :
    g._check_response headers content attempted_action url =
      { self := g
        result := Except.ok ()
        logCalls := ["Request to "
          ++ pyStrOpt (pyOrStr url (pyOrStr attempted_action (some "Unknown")))
          ++ " successful."]
        stdout := [] } := by
  unfold NationBuilderApi._check_response
  rw [if_neg]
  push_neg
  omega

/-! Sample gateways used by concrete witnesses. -/

/-- A freshly constructed gateway with a present token and no session. -/
def sampleFresh : NationBuilderApi := NationBuilderApi.init "acme" (some "tok")

/-- The gateway `sampleFresh` after `_authorise` has built its session. -/
def sampleAuthorised : NationBuilderApi :=
  { sampleFresh with
    http := some { disable_ssl_certificate_validation := true
                   credentials := some { access_token := "tok", user_agent := none } } }

/-- C1: for every response whose status lies outside 200..299,
`_check_response` raises exactly one classified error whose kind is fixed by
the status alone — 404 raises `NBNotFoundError`, 400 raises
`NBBadRequestError`, every other non-2xx status (also those below 200)
raises `NBResponseError` — and it never returns normally on such a status. -/
theorem check_response_raises_classified (g : NationBuilderApi)
    (headers : Response) (content : String)
    (attempted_action url : Option String)
    (h : headers.status < 200 ∨ headers.status > 299) :
    (g._check_response headers content attempted_action url).result =
      Except.error
        { cls := if headers.status = 404 then PyClass.nbNotFoundError
            else if headers.status = 400 then PyClass.nbBadRequestError
            else PyClass.nbResponseError
          msg := attempted_action
          header := headers
          body := content
          url := url } := by
  rw [check_response_fail_eq _ _ _ _ _ h]
  unfold error_map
  split_ifs <;> rfl

/-- C1 witness: status 500 raises the generic `NBResponseError`. -/
theorem check_response_raises_classified_witness :
    ((NationBuilderApi.init "acme" (some "tok"))._check_response
        { status := 500, fields := [] } "oops" (some "listing people")
        (some "u500")).result =
      Except.error
        { cls := PyClass.nbResponseError
          msg := some "listing people"
          header := { status := 500, fields := [] }
          body := "oops"
          url := some "u500" } :=
  (check_response_raises_classified (NationBuilderApi.init "acme" (some "tok"))
      { status := 500, fields := [] } "oops" (some "listing people")
      (some "u500") (Or.inr (by decide))).trans (by rfl)

/-- C2: for every status in 200..299, `_check_response` returns normally and
raises nothing: nothing is printed, the gateway is unchanged, and the only
effect is a single debug-level log trace. -/
theorem check_response_success_2xx (g : NationBuilderApi) (headers : Response)
    (content : String) (attempted_action url : Option String)
    (h1 : 200 ≤ headers.status) (h2 : headers.status ≤ 299) :
    (g._check_response headers content attempted_action url).result =
        Except.ok () ∧
      (g._check_response headers content attempted_action url).stdout = [] ∧
      (g._check_response headers content attempted_action url).self = g ∧
      (g._check_response headers content attempted_action url).logCalls.length
        = 1 := by
  rw [check_response_ok_eq _ _ _ _ _ h1 h2]
  exact ⟨rfl, rfl, rfl, rfl⟩

/-- C2 witness: status 204 succeeds. -/
theorem check_response_success_2xx_witness :
    ((NationBuilderApi.init "acme" (some "tok"))._check_response
        { status := 204, fields := [] } "" (some "delete person")
        (some "u204")).result = Except.ok () ∧
      ((NationBuilderApi.init "acme" (some "tok"))._check_response
        { status := 204, fields := [] } "" (some "delete person")
        (some "u204")).stdout = [] ∧
      ((NationBuilderApi.init "acme" (some "tok"))._check_response
        { status := 204, fields := [] } "" (some "delete person")
        (some "u204")).self = NationBuilderApi.init "acme" (some "tok") ∧
      ((NationBuilderApi.init "acme" (some "tok"))._check_response
        { status := 204, fields := [] } "" (some "delete person")
        (some "u204")).logCalls.length = 1 :=
  check_response_success_2xx (NationBuilderApi.init "acme" (some "tok"))
    { status := 204, fields := [] } "" (some "delete person") (some "u204")
    (by decide) (by decide)

/-- C3: on every non-2xx response the raised error carries the original url,
header mapping and body unchanged, together with the attempted-action
message — the same payload shape for all three kinds. -/
theorem raised_error_payload_unchanged (g : NationBuilderApi)
    (headers : Response) (content : String)
    (attempted_action url : Option String)
    (h : headers.status < 200 ∨ headers.status > 299) :
    (raisedError (g._check_response headers content attempted_action
        url)).map NBError.url = some url ∧
      (raisedError (g._check_response headers content attempted_action
        url)).map NBError.header = some headers ∧
      (raisedError (g._check_response headers content attempted_action
        url)).map NBError.body = some content ∧
      (raisedError (g._check_response headers content attempted_action
        url)).map NBError.msg = some attempted_action := by
  rw [check_response_fail_eq _ _ _ _ _ h]
  exact ⟨rfl, rfl, rfl, rfl⟩

/-- C3 witness: status 400 with concrete header fields, body and url. -/
theorem raised_error_payload_unchanged_witness :
    (raisedError ((NationBuilderApi.init "acme" (some "tok"))._check_response
        { status := 400, fields := [("X-Reason", "bad")] } "bad data"
        (some "updating person") (some "u400"))).map NBError.url =
        some (some "u400") ∧
      (raisedError ((NationBuilderApi.init "acme"
        (some "tok"))._check_response
        { status := 400, fields := [("X-Reason", "bad")] } "bad data"
        (some "updating person") (some "u400"))).map NBError.header =
        some { status := 400, fields := [("X-Reason", "bad")] } ∧
      (raisedError ((NationBuilderApi.init "acme"
        (some "tok"))._check_response
        { status := 400, fields := [("X-Reason", "bad")] } "bad data"
        (some "updating person") (some "u400"))).map NBError.body =
        some "bad data" ∧
      (raisedError ((NationBuilderApi.init "acme"
        (some "tok"))._check_response
        { status := 400, fields := [("X-Reason", "bad")] } "bad data"
        (some "updating person") (some "u400"))).map NBError.msg =
        some (some "updating person") :=
  raised_error_payload_unchanged (NationBuilderApi.init "acme" (some "tok"))
    { status := 400, fields := [("X-Reason", "bad")] } "bad data"
    (some "updating person") (some "u400") (Or.inr (by decide))

/-- C4 counterexample: a gateway constructed with the empty-string credential
is not rejected anywhere — `_authorise` runs to completion and produces a
usable authorised session carrying the empty token, so construction with an
empty credential does not fail fast. -/
theorem empty_credential_yields_usable_gateway :
    (NationBuilderApi.init "acme" (some ""))._authorise =
      Except.ok
        { NationBuilderApi.init "acme" (some "") with
          http := some { disable_ssl_certificate_validation := true
                         credentials := some { access_token := ""
                                               user_agent := none } } } := rfl

/-- C4 (amended): construction itself never validates the credential and
creates no session or network activity; an absent (`None`) credential is
rejected lazily, by an assertion failure on the first `_authorise` call,
before any session is constructed; an empty-string credential is not
rejected at all. -/
theorem credential_checked_lazily (nation_slug : String)
    (api_key : Option String) :
    (NationBuilderApi.init nation_slug api_key).http = none ∧
      (NationBuilderApi.init nation_slug api_key).ACCESS_TOKEN = api_key ∧
      (NationBuilderApi.init nation_slug none)._authorise =
        Except.error "AssertionError" :=
  ⟨rfl, rfl, rfl⟩

/-- C5: any successful `_authorise` yields a gateway holding a session on
which a second `_authorise` is an exact no-op — so two consecutive calls on
a fresh gateway construct exactly one session — and any gateway that already
holds a session is returned unchanged, so a session is never replaced or
recreated. -/
theorem authorise_idempotent (g g1 : NationBuilderApi)
    (h : g._authorise = Except.ok g1) :
    g1.http.isSome = true ∧ g1._authorise = Except.ok g1 ∧
      ∀ g2 : NationBuilderApi, g2.http.isSome = true →
        g2._authorise = Except.ok g2 := by
  have noop : ∀ g2 : NationBuilderApi, g2.http.isSome = true →
      g2._authorise = Except.ok g2 := by
    intro g2 h2
    unfold NationBuilderApi._authorise
    rw [if_pos h2]
  have hsome : g1.http.isSome = true := by
    unfold NationBuilderApi._authorise at h
    by_cases hs : g.http.isSome = true
    · rw [if_pos hs] at h
      injection h with h
      rw [← h]
      exact hs
    · rw [if_neg hs] at h
      cases htk : g.ACCESS_TOKEN with
      | none => rw [htk] at h; cases h
      | some tok =>
        rw [htk] at h
        injection h with h
        rw [← h]
        rfl
  exact ⟨hsome, noop g1 hsome, noop⟩

/-- C5 witness: authorising the concrete fresh gateway builds the concrete
session once, and a second call is a no-op on the resulting gateway. -/
theorem authorise_idempotent_witness :
    sampleAuthorised.http.isSome = true ∧
      sampleAuthorised._authorise = Except.ok sampleAuthorised :=
  have h := authorise_idempotent sampleFresh sampleAuthorised rfl
  ⟨h.1, h.2.1⟩

/-- C6: for every non-2xx response, constructing the classified error prints
the requested url, the response headers and the response body to stdout, the
same for every logging configuration. -/
theorem error_construction_emits_diagnostics (debugEnabled : Bool)
    (g : NationBuilderApi) (headers : Response) (content : String)
    (attempted_action url : Option String)
    (h : headers.status < 200 ∨ headers.status > 299) :
    (runCheckResponse debugEnabled g headers content attempted_action
        url).stdout =
      [pyStrOpt url, "Header: " ++ reprResponse headers,
       "Body: " ++ content] := by
  unfold runCheckResponse
  rw [check_response_fail_eq _ _ _ _ _ h]

/-- C6 witness: with debug logging disabled, a 404 error construction still
prints the url, headers and body. -/
theorem error_construction_emits_diagnostics_witness :
    (runCheckResponse false (NationBuilderApi.init "acme" (some "tok"))
        { status := 404, fields := [("Content-Length", "2")] } "nf"
        (some "getting person") (some "u404")).stdout =
      [pyStrOpt (some "u404"),
       "Header: " ++ reprResponse { status := 404
                                    fields := [("Content-Length", "2")] },
       "Body: " ++ "nf"] :=
  error_construction_emits_diagnostics false
    (NationBuilderApi.init "acme" (some "tok"))
    { status := 404, fields := [("Content-Length", "2")] } "nf"
    (some "getting person") (some "u404") (Or.inr (by decide))

/-- C7: on a successful response the debug trace names the url; if the url
is absent (None or empty, Python falsiness) it names the attempted-action
description instead; if both are absent it names the literal "Unknown". -/
theorem success_trace_fallback (g : NationBuilderApi) (headers : Response)
    (content : String) (attempted_action url : Option String)
    (h1 : 200 ≤ headers.status) (h2 : headers.status ≤ 299) :
    (g._check_response headers content attempted_action url).logCalls =
      ["Request to "
        ++ (if pyTruthy url then pyStrOpt url
            else if pyTruthy attempted_action then pyStrOpt attempted_action
            else "Unknown")
        ++ " successful."] := by
  rw [check_response_ok_eq _ _ _ _ _ h1 h2]
  unfold pyOrStr
  split_ifs <;> rfl

/-- C7 witness: with both url and action absent, the trace names "Unknown". -/
theorem success_trace_fallback_witness :
    ((NationBuilderApi.init "acme" (some "tok"))._check_response
        { status := 200, fields := [] } "ok" none none).logCalls =
      ["Request to Unknown successful."] :=
  (success_trace_fallback (NationBuilderApi.init "acme" (some "tok"))
      { status := 200, fields := [] } "ok" none none
      (by decide) (by decide)).trans (by rfl)

/-- C8: `NBNotFoundError` and `NBBadRequestError` are subclasses of
`NBResponseError`, and every error `_check_response` raises on a non-2xx
status is an instance of `NBResponseError`, so a caller catching the generic
kind catches all three. -/
theorem error_kinds_subclass_generic (g : NationBuilderApi)
    (headers : Response) (content : String)
    (attempted_action url : Option String)
    (h : headers.status < 200 ∨ headers.status > 299) :
    isSubclassOf PyClass.nbNotFoundError PyClass.nbResponseError = true ∧
      isSubclassOf PyClass.nbBadRequestError PyClass.nbResponseError = true ∧
      (raisedError (g._check_response headers content attempted_action
          url)).map (fun e => isSubclassOf e.cls PyClass.nbResponseError) =
        some true := by
  refine ⟨rfl, rfl, ?_⟩
  rw [check_response_fail_eq _ _ _ _ _ h]
  unfold error_map
  split_ifs <;> rfl

/-- C8 witness: the 404 error is an instance of `NBResponseError`. -/
theorem error_kinds_subclass_generic_witness :
    isSubclassOf PyClass.nbNotFoundError PyClass.nbResponseError = true ∧
      isSubclassOf PyClass.nbBadRequestError PyClass.nbResponseError = true ∧
      (raisedError ((NationBuilderApi.init "acme" (some "tok"))._check_response
          { status := 404, fields := [] } "nf" none (some "u"))).map
        (fun e => isSubclassOf e.cls PyClass.nbResponseError) = some true :=
  error_kinds_subclass_generic (NationBuilderApi.init "acme" (some "tok"))
    { status := 404, fields := [] } "nf" none (some "u") (Or.inr (by decide))

/-- C9: `_check_response` never modifies the gateway: whether it returns
normally or raises, the object state afterwards is the one passed in, in
particular the session handle and the stored access token. -/
theorem check_response_preserves_gateway (g : NationBuilderApi)
    (headers : Response) (content : String)
    (attempted_action url : Option String) :
    (g._check_response headers content attempted_action url).self = g ∧
      (g._check_response headers content attempted_action url).self.http =
        g.http ∧
      (g._check_response headers content attempted_action
        url).self.ACCESS_TOKEN = g.ACCESS_TOKEN := by
  unfold NationBuilderApi._check_response NationBuilderApi._raise_error
  split <;> exact ⟨rfl, rfl, rfl⟩

/-- C10: the classification outcome of `_check_response` depends only on the
status code: two calls whose responses carry equal statuses but arbitrary
different header fields, bodies, action descriptions, urls and gateways
either both return normally or both raise errors of the same kind. -/
theorem classification_depends_only_on_status (g g' : NationBuilderApi)
    (h1 h2 : Response) (c1 c2 : String) (a1 a2 u1 u2 : Option String)
    (hs : h1.status = h2.status) :
    (raisedError (g._check_response h1 c1 a1 u1)).map NBError.cls =
      (raisedError (g'._check_response h2 c2 a2 u2)).map NBError.cls := by
  by_cases h : h1.status < 200 ∨ h1.status > 299
  · have h' : h2.status < 200 ∨ h2.status > 299 := hs ▸ h
    rw [check_response_fail_eq _ _ _ _ _ h,
      check_response_fail_eq _ _ _ _ _ h']
    simp only [raisedError, Option.map, hs]
  · push_neg at h
    have h1a : 200 ≤ h1.status := h.1
    have h1b : h1.status ≤ 299 := by omega
    rw [check_response_ok_eq _ _ _ _ _ h1a h1b,
      check_response_ok_eq _ _ _ _ _ (hs ▸ h1a) (hs ▸ h1b)]
    rfl

/-- C10 witness: two 404 responses with different headers, bodies, actions,
urls and gateways are classified the same. -/
theorem classification_depends_only_on_status_witness :
    (raisedError ((NationBuilderApi.init "acme" (some "t1"))._check_response
        { status := 404, fields := [("X-A", "1")] } "b1" (some "a1")
        (some "u1"))).map NBError.cls =
      (raisedError ((NationBuilderApi.init "other" none)._check_response
        { status := 404, fields := [] } "b2" none none)).map NBError.cls :=
  classification_depends_only_on_status
    (NationBuilderApi.init "acme" (some "t1"))
    (NationBuilderApi.init "other" none)
    { status := 404, fields := [("X-A", "1")] } { status := 404, fields := [] }
    "b1" "b2" (some "a1") none (some "u1") none rfl
